import Mathlib

/-!
Shallow embedding of the payment-orchestration service in `src/app.py`.

The service keeps payment records in an external record store reached over
HTTP (`db_request`).  We model a record store snapshot as an association list
from payment id to record, and every possible transport / downstream failure
of an individual store call as an explicit fault oracle (`Option HErr`, where
`none` means the call behaves according to the store contents and `some e`
means the call raises the HTTP-level error `e`).  Each public operation of the
service is translated into a pure Lean function over the store snapshot plus
its fault oracle; the function returns either the HTTP error the endpoint
raises or the response record together with the new store snapshot and the
trace of downstream calls the handler issued.
-/

namespace PaymentService

/-- An HTTP-level error (`HTTPException` in the source): a status code and a
human-readable detail string. -/
structure HErr where
  status_code : Nat
  detail : String
deriving DecidableEq, Repr

/-- A payment record, mirroring the fields of `PaymentIn` that the handlers
read and write.  `amount` is `Option ℚ` so that a stored record whose amount
is JSON `null` (Python `None`) is representable; `none` takes the same code
path as a non-positive amount in every handler. -/
structure Payment where
  id : String
  order_id : String
  amount : Option ℚ
  status : String
deriving DecidableEq, Repr

/-- Replace the `status` field of a payment (the in-place dict mutation
`payment["status"] = ...` of the source). -/
def Payment.withStatus (p : Payment) (st : String) : Payment :=
  ⟨p.id, p.order_id, p.amount, st⟩

/-- A snapshot of the payment records held by the database service, keyed by
payment id. -/
abbrev Store := List (String × Payment)

/-- `GET /payments/{pid}` on the database side: the first record stored under
`pid`, if any. -/
def storeFind : Store → String → Option Payment
  | [], _ => none
  | (k, q) :: rest, pid => if k = pid then some q else storeFind rest pid

/-- `PUT`/`POST` of a record on the database side: replace the record stored
under `pid`, or append it if absent. -/
def storePut : Store → String → Payment → Store
  | [], pid, p => [(pid, p)]
  | (k, q) :: rest, pid, p =>
      if k = pid then (pid, p) :: rest else (k, q) :: storePut rest pid p

/-- One downstream call issued by a handler, as recorded in its trace. -/
inductive Call where
  /-- `GET /payments/{pid}` -/
  | getPayment (pid : String)
  /-- `POST /payments` with a record body -/
  | postPayment (p : Payment)
  /-- `PUT /payments/{pid}` with a record body -/
  | putPayment (pid : String) (p : Payment)
  /-- `POST /orders/{oid}/refund-metadata` with the refund-attempt payload -/
  | postRefundMeta (oid pid : String) (success : Bool) (errMsg : Option String)
  /-- `GET /orders/{oid}` (the read half of the fallback) -/
  | getOrder (oid : String)
  /-- `PUT /orders/{oid}` (the write half of the fallback) -/
  | putOrder (oid : String)
deriving DecidableEq, Repr

/-- Python's `str.lower()` on the ASCII statuses the service uses: lower-case
each character. -/
def pyLower (s : String) : String := String.mk (s.data.map Char.toLower)

/-- `db_request("GET", "/payments/{pid}")`: a transport or downstream fault
raises it as an `HTTPException`; otherwise the stored record is returned, or a
404 error when no record exists under `pid`. -/
def dbGetPayment (s : Store) (pid : String) (fault : Option HErr) :
    Except HErr Payment :=
  match fault with
  | some e => Except.error e
  | none =>
      match storeFind s pid with
      | some p => Except.ok p
      | none => Except.error ⟨404, "payment not found"⟩

/-- `_simulate_payment_processing`: `"completed"` for a strictly positive
amount, `"failed"` for `None` or a non-positive amount. -/
def simulate_payment_processing (amount : Option ℚ) : String :=
  match amount with
  | none => "failed"
  | some a => if a > 0 then "completed" else "failed"

/-- Outcome of the dedicated `POST /orders/{oid}/refund-metadata` attempt:
either an exception mid-call or a response with the given status code. -/
inductive AnnPostOutcome where
  | exn
  | status (code : Nat)
deriving DecidableEq, Repr

/-- Fault oracle for one invocation of the best-effort order-annotating
helper: outcome of the dedicated metadata call, then of the fallback order
`GET` and order `PUT` (where `none` means the call succeeds). -/
structure AnnFaults where
  post : AnnPostOutcome
  getOrder : Option HErr
  putOrder : Option HErr
deriving DecidableEq, Repr

/-- `_record_refund_on_order_best_effort`: returns only the trace of the
downstream calls it issued, because every failure inside it is swallowed and
it returns no data.  An empty `order_id` (Python falsy) issues no call at all;
otherwise the dedicated metadata endpoint is tried first, and on an exception
or a `>= 400` response the single fallback (order `GET` then, if the `GET`
succeeded, order `PUT`) runs, all outcomes discarded. -/
def record_refund_on_order_best_effort (order_id payment_id : String)
    (success : Bool) (errMsg : Option String) (f : AnnFaults) : List Call :=
  if order_id = "" then []
  else
    let fallback : List Call :=
      match f.getOrder with
      | some _ => [Call.getOrder order_id]
      | none => [Call.getOrder order_id, Call.putOrder order_id]
    match f.post with
    | AnnPostOutcome.exn => Call.postRefundMeta order_id payment_id success errMsg :: fallback
    | AnnPostOutcome.status code =>
        if code < 400 then [Call.postRefundMeta order_id payment_id success errMsg]
        else Call.postRefundMeta order_id payment_id success errMsg :: fallback

/-- The refund decision of step 3 of `refund_payment`: a missing (`None`) or
non-positive amount fails with reason `"Invalid amount for refund"`; a
strictly positive amount succeeds. -/
def refundDecide (amount : Option ℚ) : Bool × Option String :=
  match amount with
  | none => (false, some "Invalid amount for refund")
  | some a =>
      if a ≤ 0 then (false, some "Invalid amount for refund") else (true, none)

/-- Fault oracle for one `refund_payment` request: the initial payment `GET`,
the status-persisting `PUT`, the annotating helper, and the final fresh
`GET`. -/
structure RefundFaults where
  get1 : Option HErr
  put : Option HErr
  ann : AnnFaults
  get2 : Option HErr
deriving DecidableEq, Repr

/-- Replace the annotating helper's fault component of a refund fault
oracle. -/
def RefundFaults.withAnn (f : RefundFaults) (a : AnnFaults) : RefundFaults :=
  ⟨f.get1, f.put, a, f.get2⟩

/-- A fault oracle under which every downstream call of the annotating helper
succeeds (dedicated endpoint answers 200). -/
def annOk : AnnFaults := ⟨AnnPostOutcome.status 200, none, none⟩

/-- A refund fault oracle under which every downstream call succeeds. -/
def okRF : RefundFaults := ⟨none, none, annOk, none⟩

/-- `POST /payments/{pid}/refund` (`refund_payment` in the source).
Step 1 fetches the payment, remapping a 404 to "Payment not found";
step 2 returns the record unchanged when its lower-cased status is already
`refunded`/`voided`; step 3 decides the refund from the amount; step 4 writes
status `"refunded"` or `"refund_failed"` back, remapping any write failure to
a 502 `Failed to persist payment refund status`; step 5 runs the best-effort
order annotating helper; step 6 re-reads and returns the stored record. -/
def refund_payment (pid : String) (s : Store) (f : RefundFaults) :
    Except HErr (Payment × Store × List Call) :=
  match dbGetPayment s pid f.get1 with
  | Except.error e =>
      if e.status_code = 404 then Except.error ⟨404, "Payment not found"⟩
      else Except.error e
  | Except.ok payment =>
      let pstatus := pyLower payment.status
      if pstatus = "refunded" ∨ pstatus = "voided" then
        Except.ok (payment, s, [Call.getPayment pid])
      else
        let dec := refundDecide payment.amount
        let newp := payment.withStatus (if dec.1 then "refunded" else "refund_failed")
        match f.put with
        | some e =>
            Except.error ⟨502, "Failed to persist payment refund status: " ++ e.detail⟩
        | none =>
            let s2 := storePut s pid newp
            let annTrace :=
              record_refund_on_order_best_effort newp.order_id pid dec.1 dec.2 f.ann
            match f.get2 with
            | some e => Except.error e
            | none =>
                match storeFind s2 pid with
                | some updated =>
                    Except.ok (updated, s2,
                      Call.getPayment pid :: Call.putPayment pid newp ::
                        annTrace ++ [Call.getPayment pid])
                | none => Except.error ⟨404, "payment not found"⟩

/-- Fault oracle for one `create_payment` request: the existence `GET`, the
inserting `POST`, and the synchronous-processing `PUT`. -/
structure CreateFaults where
  get1 : Option HErr
  post : Option HErr
  putSync : Option HErr
deriving DecidableEq, Repr

/-- A create fault oracle under which every downstream call succeeds. -/
def okCF : CreateFaults := ⟨none, none, none⟩

/-- `POST /payments` (`create_payment` in the source), with the
`PROCESS_PAYMENTS_SYNC` flag as the `sync` argument.
Step 1 returns the stored record when one already exists under the payload's
id (any `GET` error other than 404 propagates); step 2 inserts the payload;
step 3, when `sync` is set and the payload's lower-cased status is
`"pending"`, simulates processing and, if the status changed, tries to `PUT`
the updated record — returning the updated record on success and falling back
to the inserted record when that `PUT` raises. -/
def create_payment (payload : Payment) (sync : Bool) (s : Store)
    (f : CreateFaults) : Except HErr (Payment × Store × List Call) :=
  match dbGetPayment s payload.id f.get1 with
  | Except.ok existing => Except.ok (existing, s, [Call.getPayment payload.id])
  | Except.error e =>
      if e.status_code ≠ 404 then Except.error e
      else
        match f.post with
        | some e2 => Except.error e2
        | none =>
            let s1 := storePut s payload.id payload
            if sync ∧ pyLower payload.status = "pending" then
              let new_status := simulate_payment_processing payload.amount
              if new_status ≠ payload.status then
                let updated := payload.withStatus new_status
                match f.putSync with
                | some _ =>
                    Except.ok (payload, s1,
                      [Call.getPayment payload.id, Call.postPayment payload,
                        Call.putPayment payload.id updated])
                | none =>
                    Except.ok (updated, storePut s1 payload.id updated,
                      [Call.getPayment payload.id, Call.postPayment payload,
                        Call.putPayment payload.id updated])
              else
                Except.ok (payload, s1,
                  [Call.getPayment payload.id, Call.postPayment payload])
            else
              Except.ok (payload, s1,
                [Call.getPayment payload.id, Call.postPayment payload])

/-- Fault oracle for one `update_payment` request: the existence `GET` and
the replacing `PUT`. -/
structure UpdateFaults where
  get1 : Option HErr
  put : Option HErr
deriving DecidableEq, Repr

/-- An update fault oracle under which every downstream call succeeds. -/
def okUF : UpdateFaults := ⟨none, none⟩

/-- `PUT /payments/{pid}` (`update_payment` in the source): a 404 on the
existence check is remapped to "Payment not found", any other `GET` error
propagates; otherwise the stored record is replaced wholesale by the payload
and the payload is returned. -/
def update_payment (pid : String) (payload : Payment) (s : Store)
    (f : UpdateFaults) : Except HErr (Payment × Store) :=
  match dbGetPayment s pid f.get1 with
  | Except.error e =>
      if e.status_code = 404 then Except.error ⟨404, "Payment not found"⟩
      else Except.error e
  | Except.ok _ =>
      match f.put with
      | some e => Except.error e
      | none => Except.ok (payload, storePut s pid payload)

/-- Forget the call trace of a handler result, keeping the response and the
resulting store snapshot. -/
def eraseTrace (r : Except HErr (Payment × Store × List Call)) :
    Except HErr (Payment × Store) :=
  Except.map (fun x => (x.1, x.2.1)) r

/-- Modelled from the spec: the capture operation of §4.1 is not implemented
in `src/app.py` (the file exposes no capture endpoint).  Per the transition
table, capture requires state `authorized`, moves it to `captured`, and any
other current state is rejected with a conflict signal without touching the
entity. -/
def capture_payment (pid : String) (s : Store) : Except HErr (Payment × Store) :=
  match storeFind s pid with
  | none => Except.error ⟨404, "Payment not found"⟩
  | some p =>
      if p.status = "authorized" then
        Except.ok (p.withStatus "captured", storePut s pid (p.withStatus "captured"))
      else Except.error ⟨409, "Conflict: payment not in authorized state"⟩

/-- Retrying `capture_payment` up to `n + 1` times against the store, moving
on only while the attempt fails (the failing attempt leaves the store
untouched, so each retry sees the same snapshot). -/
def captureRetry : Nat → String → Store → Except HErr (Payment × Store)
  | 0, pid, s => capture_payment pid s
  | n + 1, pid, s =>
      match capture_payment pid s with
      | Except.error _ => captureRetry n pid s
      | Except.ok r => Except.ok r

/-- Modelled from the spec: the position of a status along the §4.1
transition graph `requires_confirmation`/`pending` → `authorized` →
`captured`/`completed` → `refunded`, with `voided`/`canceled` as alternate
terminals and `refund_failed` as the failure sibling of a refund attempt.
Used only to state the forward-progress claim. -/
def statusRank (st : String) : Nat :=
  if st = "pending" ∨ st = "requires_confirmation" then 0
  else if st = "authorized" then 1
  else if st = "captured" ∨ st = "completed" then 2
  else 3

/-! ### Store lemmas -/

theorem storeFind_storePut_self (s : Store) (pid : String) (p : Payment) :
    storeFind (storePut s pid p) pid = some p := by
  induction s with
  | nil => simp [storePut, storeFind]
  | cons kv rest ih =>
      by_cases h : kv.1 = pid
      · simp [storePut, storeFind, h]
      · simp [storePut, storeFind, h, ih]

theorem storeFind_storePut_ne (s : Store) (pid q : String) (p : Payment)
    (h : q ≠ pid) : storeFind (storePut s pid p) q = storeFind s q := by
  induction s with
  | nil => simp [storePut, storeFind, Ne.symm h]
  | cons kv rest ih =>
      obtain ⟨k, v⟩ := kv
      by_cases hk : k = pid
      · subst hk
        simp [storePut, storeFind, Ne.symm h]
      · by_cases hq : k = q <;> simp [storePut, storeFind, hk, hq, ih, h]

/-! ### Claim theorems -/

/-- C3 — for every stored payment whose (lower-cased) status is already
`refunded` or `voided`, the refund endpoint returns the payment unchanged,
leaves the store untouched, and its trace consists of the single initial
`GET`: no store write and no order-annotating call happens, for any outcome
of the later fault oracle components. -/
theorem refund_replay_is_idempotent
    (pid : String) (s : Store) (p : Payment) (f : RefundFaults)
    (hfind : storeFind s pid = some p)
    (hterm : pyLower p.status = "refunded" ∨ pyLower p.status = "voided")
    (hg1 : f.get1 = none) :
    refund_payment pid s f = Except.ok (p, s, [Call.getPayment pid]) := by
  simp [refund_payment, dbGetPayment, hg1, hfind, hterm]

/-- Witness for `refund_replay_is_idempotent` at a concrete store. -/
theorem refund_replay_is_idempotent_witness :
    refund_payment "p9" [("p9", ⟨"p9", "o9", some 7, "refunded"⟩)]
        ⟨none, some ⟨500, "boom"⟩, annOk, some ⟨504, "slow"⟩⟩ =
      Except.ok (⟨"p9", "o9", some 7, "refunded"⟩,
        [("p9", ⟨"p9", "o9", some 7, "refunded"⟩)], [Call.getPayment "p9"]) :=
  refund_replay_is_idempotent "p9" _ _ _ (by decide) (Or.inl (by decide)) rfl

/-- The annotating helper always opens with the dedicated refund-metadata
call when the order id is non-empty, whatever its fault oracle says. -/
theorem postMeta_mem_record (oid pid : String) (b : Bool) (em : Option String)
    (fa : AnnFaults) (h : oid ≠ "") :
    Call.postRefundMeta oid pid b em ∈
      record_refund_on_order_best_effort oid pid b em fa := by
  unfold record_refund_on_order_best_effort
  rw [if_neg h]
  rcases fa with ⟨post, g, pu⟩
  cases post with
  | exn => simp
  | status code => by_cases hc : code < 400 <;> simp [hc]

/-- C1 — for every stored payment with a strictly positive amount whose
(lower-cased) status is not `refunded`/`voided`, and a store whose calls all
succeed, the refund endpoint succeeds: it returns the payment with status
`"refunded"` and the store now holds that record under the payment's id. -/
theorem refund_succeeds_on_positive_amount
    (pid : String) (s : Store) (p : Payment) (f : RefundFaults) (a : ℚ)
    (hfind : storeFind s pid = some p)
    (hamt : p.amount = some a) (hpos : 0 < a)
    (hnr : pyLower p.status ≠ "refunded") (hnv : pyLower p.status ≠ "voided")
    (hg1 : f.get1 = none) (hput : f.put = none) (hg2 : f.get2 = none) :
    ∃ tr, refund_payment pid s f =
      Except.ok (p.withStatus "refunded",
        storePut s pid (p.withStatus "refunded"), tr) := by
  refine ⟨Call.getPayment pid :: Call.putPayment pid (p.withStatus "refunded") ::
      record_refund_on_order_best_effort p.order_id pid true none f.ann ++
        [Call.getPayment pid], ?_⟩
  simp [refund_payment, dbGetPayment, hg1, hfind, hnr, hnv, hput, hg2,
    refundDecide, hamt, not_le.mpr hpos, storeFind_storePut_self, Payment.withStatus]

/-- Witness for `refund_succeeds_on_positive_amount` at a concrete store. -/
theorem refund_succeeds_on_positive_amount_witness :
    ∃ tr, refund_payment "p1" [("p1", ⟨"p1", "o1", some 100, "completed"⟩)] okRF =
      Except.ok (⟨"p1", "o1", some 100, "refunded"⟩,
        [("p1", ⟨"p1", "o1", some 100, "refunded"⟩)], tr) :=
  refund_succeeds_on_positive_amount "p1"
    [("p1", ⟨"p1", "o1", some 100, "completed"⟩)]
    ⟨"p1", "o1", some 100, "completed"⟩ okRF 100 (by decide) rfl (by norm_num)
    (by decide) (by decide) rfl rfl rfl

/-- C4 — whenever the `PUT` that persists the refund outcome fails, with any
HTTP-level error whatsoever, the refund endpoint raises 502 "Failed to
persist payment refund status", for every payment that reaches the write
step. -/
theorem refund_write_failure_yields_502
    (pid : String) (s : Store) (p : Payment) (f : RefundFaults) (e : HErr)
    (hfind : storeFind s pid = some p)
    (hnr : pyLower p.status ≠ "refunded") (hnv : pyLower p.status ≠ "voided")
    (hg1 : f.get1 = none) (hput : f.put = some e) :
    refund_payment pid s f =
      Except.error ⟨502, "Failed to persist payment refund status: " ++ e.detail⟩ := by
  simp [refund_payment, dbGetPayment, hg1, hfind, hnr, hnv, hput]

/-- Witness for `refund_write_failure_yields_502`: a simulated store timeout
at the write step surfaces as the 502 remap. -/
theorem refund_write_failure_yields_502_witness :
    refund_payment "p2" [("p2", ⟨"p2", "o2", some 50, "captured"⟩)]
        ⟨none, some ⟨504, "Timeout connecting to database service"⟩, annOk, none⟩ =
      Except.error ⟨502,
        "Failed to persist payment refund status: Timeout connecting to database service"⟩ :=
  refund_write_failure_yields_502 "p2"
    [("p2", ⟨"p2", "o2", some 50, "captured"⟩)] ⟨"p2", "o2", some 50, "captured"⟩
    ⟨none, some ⟨504, "Timeout connecting to database service"⟩, annOk, none⟩
    ⟨504, "Timeout connecting to database service"⟩
    (by decide) (by decide) (by decide) rfl rfl

/-- C2, counterexample — at a stored payment with amount 0 in a refundable
state, the refund endpoint does end in status `"refund_failed"`, but the
failure reason it retains (the one handed to the order-annotating call) is
the string `"Invalid amount for refund"`, which differs from the claimed
`"invalid amount for refund"`; no call carrying the claimed lower-case reason
occurs. -/
theorem refund_invalid_amount_reason_cex :
    refund_payment "p1" [("p1", ⟨"p1", "o1", some 0, "completed"⟩)] okRF =
      Except.ok (⟨"p1", "o1", some 0, "refund_failed"⟩,
        [("p1", ⟨"p1", "o1", some 0, "refund_failed"⟩)],
        [Call.getPayment "p1",
          Call.putPayment "p1" ⟨"p1", "o1", some 0, "refund_failed"⟩,
          Call.postRefundMeta "o1" "p1" false (some "Invalid amount for refund"),
          Call.getPayment "p1"]) ∧
    "Invalid amount for refund" ≠ "invalid amount for refund" ∧
    Call.postRefundMeta "o1" "p1" false (some "invalid amount for refund") ∉
      [Call.getPayment "p1",
        Call.putPayment "p1" ⟨"p1", "o1", some 0, "refund_failed"⟩,
        Call.postRefundMeta "o1" "p1" false (some "Invalid amount for refund"),
        Call.getPayment "p1"] :=
  ⟨rfl, by decide, by decide⟩

/-- C2, amended — for every stored payment whose amount is absent or ≤ 0 and
whose (lower-cased) status is not `refunded`/`voided`, with the fetch and
write succeeding, the refund ends with the payment persisted in status
`"refund_failed"` (never silently left in its prior state), and the retained
failure reason is `"Invalid amount for refund"` (capital I), handed to the
order-annotating call when an order id is present. -/
theorem refund_fails_on_invalid_amount
    (pid : String) (s : Store) (p : Payment) (f : RefundFaults)
    (hfind : storeFind s pid = some p)
    (hamt : p.amount = none ∨ ∃ a, p.amount = some a ∧ a ≤ 0)
    (hnr : pyLower p.status ≠ "refunded") (hnv : pyLower p.status ≠ "voided")
    (hg1 : f.get1 = none) (hput : f.put = none) (hg2 : f.get2 = none)
    (hoid : p.order_id ≠ "") :
    ∃ tr, refund_payment pid s f =
      Except.ok (p.withStatus "refund_failed",
        storePut s pid (p.withStatus "refund_failed"), tr) ∧
      Call.postRefundMeta p.order_id pid false
        (some "Invalid amount for refund") ∈ tr := by
  have hdec : refundDecide p.amount = (false, some "Invalid amount for refund") := by
    rcases hamt with h | ⟨a, ha, hle⟩
    · simp [refundDecide, h]
    · simp [refundDecide, ha, hle]
  refine ⟨Call.getPayment pid :: Call.putPayment pid (p.withStatus "refund_failed") ::
      record_refund_on_order_best_effort p.order_id pid false
        (some "Invalid amount for refund") f.ann ++ [Call.getPayment pid], ?_, ?_⟩
  · simp [refund_payment, dbGetPayment, hg1, hfind, hnr, hnv, hput, hg2,
      hdec, storeFind_storePut_self, Payment.withStatus]
  · have hm := postMeta_mem_record p.order_id pid false
      (some "Invalid amount for refund") f.ann hoid
    simp [hm]

/-- Witness for `refund_fails_on_invalid_amount` at a concrete store with a
negative amount. -/
theorem refund_fails_on_invalid_amount_witness :
    ∃ tr, refund_payment "p3" [("p3", ⟨"p3", "o3", some (-2), "captured"⟩)] okRF =
      Except.ok (⟨"p3", "o3", some (-2), "refund_failed"⟩,
        [("p3", ⟨"p3", "o3", some (-2), "refund_failed"⟩)], tr) ∧
      Call.postRefundMeta "o3" "p3" false (some "Invalid amount for refund") ∈ tr :=
  refund_fails_on_invalid_amount "p3"
    [("p3", ⟨"p3", "o3", some (-2), "captured"⟩)] ⟨"p3", "o3", some (-2), "captured"⟩
    okRF (by decide)
    (Or.inr ⟨-2, rfl, by norm_num⟩) (by decide) (by decide) rfl rfl rfl (by decide)

/-- C5 — the fault oracle of the best-effort order-annotating step never
changes what the refund endpoint answers or what the payment store ends up
holding: the result equals, traces erased, the result under any other
annotating outcome (in particular a fully successful one).  Moreover the
helper issues at most one dedicated metadata call, at most one fallback order
read and at most one fallback order write per refund. -/
theorem refund_unaffected_by_order_annotating_failures :
    (∀ (pid : String) (s : Store) (f : RefundFaults) (a : AnnFaults),
        eraseTrace (refund_payment pid s f) =
          eraseTrace (refund_payment pid s (f.withAnn a)))
    ∧ (∀ (oid pmid : String) (b : Bool) (em : Option String) (fa : AnnFaults),
        (record_refund_on_order_best_effort oid pmid b em fa).countP
            (fun c => match c with | Call.getOrder _ => true | _ => false) ≤ 1 ∧
        (record_refund_on_order_best_effort oid pmid b em fa).countP
            (fun c => match c with | Call.putOrder _ => true | _ => false) ≤ 1 ∧
        (record_refund_on_order_best_effort oid pmid b em fa).countP
            (fun c => match c with | Call.postRefundMeta _ _ _ _ => true | _ => false) ≤ 1) := by
  constructor
  · intro pid s f a
    rcases f with ⟨g1, put, ann, g2⟩
    simp only [refund_payment, dbGetPayment, RefundFaults.withAnn]
    cases g1 with
    | some e => rfl
    | none =>
        cases hf : storeFind s pid with
        | none => rfl
        | some p =>
            by_cases hterm : pyLower p.status = "refunded" ∨ pyLower p.status = "voided"
            · simp [hterm]
            · simp only [if_neg hterm]
              cases put with
              | some e => rfl
              | none =>
                  cases g2 with
                  | some e => rfl
                  | none => simp [eraseTrace, Except.map, storeFind_storePut_self]
  · intro oid pmid b em fa
    by_cases h : oid = ""
    · simp [record_refund_on_order_best_effort, h]
    · rcases fa with ⟨post, g, pu⟩
      cases post with
      | exn =>
          cases g <;>
            simp [record_refund_on_order_best_effort, h, List.countP_cons, List.countP_nil]
      | status code =>
          by_cases hc : code < 400
          · simp [record_refund_on_order_best_effort, h, hc,
              List.countP_cons, List.countP_nil]
          · cases g <;>
              simp [record_refund_on_order_best_effort, h, hc,
                List.countP_cons, List.countP_nil]

/-- The replaying half of `create_payment`: when a record is already stored
under the payload's id and the existence `GET` succeeds, the endpoint returns
the stored record and issues no other downstream call. -/
theorem create_replay_step (p2 : Payment) (sync : Bool) (s1 : Store)
    (f2 : CreateFaults) (q : Payment)
    (hg2 : f2.get1 = none) (hq : storeFind s1 p2.id = some q) :
    create_payment p2 sync s1 f2 = Except.ok (q, s1, [Call.getPayment p2.id]) := by
  simp [create_payment, dbGetPayment, hg2, hq]

/-- C6 — creating under a fresh id and then creating again under the same id
with an arbitrary second payload returns the same record both times: the
second call answers exactly the record the first call returned (which the
store holds under that id), issues only the existence `GET` (so no insert
happens and the store is untouched), and no id other than the deduplication
id is ever written by the first call. -/
theorem create_twice_same_key_returns_same_entity
    (p1 p2 : Payment) (sync : Bool) (s : Store) (f1 f2 : CreateFaults)
    (hfresh : storeFind s p1.id = none) (hid : p2.id = p1.id)
    (hg1 : f1.get1 = none) (hpost : f1.post = none) (hg2 : f2.get1 = none) :
    ∃ q s1 tr1,
      create_payment p1 sync s f1 = Except.ok (q, s1, tr1) ∧
      create_payment p2 sync s1 f2 = Except.ok (q, s1, [Call.getPayment p2.id]) ∧
      storeFind s1 p1.id = some q ∧
      ∀ r, r ≠ p1.id → storeFind s1 r = storeFind s r := by
  rcases f1 with ⟨g1, post, putSync⟩
  cases hg1; cases hpost
  by_cases hs : sync ∧ pyLower p1.status = "pending"
  · by_cases hn : simulate_payment_processing p1.amount ≠ p1.status
    · cases hps : putSync with
      | some e =>
          refine ⟨p1, storePut s p1.id p1,
            [Call.getPayment p1.id, Call.postPayment p1,
              Call.putPayment p1.id
                (p1.withStatus (simulate_payment_processing p1.amount))],
            ?_, ?_, ?_, ?_⟩
          · simp [create_payment, dbGetPayment, hfresh, hs, hn, hps]
          · exact create_replay_step _ _ _ _ _ hg2
              (by rw [hid]; exact storeFind_storePut_self s p1.id p1)
          · exact storeFind_storePut_self s p1.id p1
          · intro r hr; exact storeFind_storePut_ne s p1.id r p1 hr
      | none =>
          refine ⟨p1.withStatus (simulate_payment_processing p1.amount),
            storePut (storePut s p1.id p1) p1.id
              (p1.withStatus (simulate_payment_processing p1.amount)),
            [Call.getPayment p1.id, Call.postPayment p1,
              Call.putPayment p1.id
                (p1.withStatus (simulate_payment_processing p1.amount))],
            ?_, ?_, ?_, ?_⟩
          · simp [create_payment, dbGetPayment, hfresh, hs, hn, hps]
          · exact create_replay_step _ _ _ _ _ hg2
              (by rw [hid]; exact storeFind_storePut_self _ p1.id _)
          · exact storeFind_storePut_self _ p1.id _
          · intro r hr
            rw [storeFind_storePut_ne _ _ _ _ hr, storeFind_storePut_ne _ _ _ _ hr]
    · refine ⟨p1, storePut s p1.id p1,
        [Call.getPayment p1.id, Call.postPayment p1], ?_, ?_, ?_, ?_⟩
      · simp [create_payment, dbGetPayment, hfresh, hs, hn]
      · exact create_replay_step _ _ _ _ _ hg2
          (by rw [hid]; exact storeFind_storePut_self s p1.id p1)
      · exact storeFind_storePut_self s p1.id p1
      · intro r hr; exact storeFind_storePut_ne s p1.id r p1 hr
  · refine ⟨p1, storePut s p1.id p1,
      [Call.getPayment p1.id, Call.postPayment p1], ?_, ?_, ?_, ?_⟩
    · simp [create_payment, dbGetPayment, hfresh, hs]
    · exact create_replay_step _ _ _ _ _ hg2
        (by rw [hid]; exact storeFind_storePut_self s p1.id p1)
    · exact storeFind_storePut_self s p1.id p1
    · intro r hr; exact storeFind_storePut_ne s p1.id r p1 hr

/-- Witness for `create_twice_same_key_returns_same_entity`: two creates of
id `"k1"` with different payloads against an empty store. -/
theorem create_twice_same_key_returns_same_entity_witness :
    ∃ q s1 tr1,
      create_payment ⟨"k1", "o1", some 10, "pending"⟩ true [] okCF =
        Except.ok (q, s1, tr1) ∧
      create_payment ⟨"k1", "oX", some 999, "authorized"⟩ true s1 okCF =
        Except.ok (q, s1, [Call.getPayment "k1"]) ∧
      storeFind s1 "k1" = some q ∧
      ∀ r, r ≠ "k1" → storeFind s1 r = storeFind [] r :=
  create_twice_same_key_returns_same_entity
    ⟨"k1", "o1", some 10, "pending"⟩ ⟨"k1", "oX", some 999, "authorized"⟩
    true [] okCF okCF rfl rfl rfl rfl rfl

/-- C7, counterexample — the refund endpoint performs the refund transition
on a stored payment whose status is `"pending"`, which is neither `captured`
nor `completed`: the payment ends up persisted as `"refunded"`. -/
theorem refund_from_pending_cex :
    eraseTrace (refund_payment "p1" [("p1", ⟨"p1", "o1", some 100, "pending"⟩)] okRF) =
      Except.ok (⟨"p1", "o1", some 100, "refunded"⟩,
        [("p1", ⟨"p1", "o1", some 100, "refunded"⟩)]) ∧
    ("pending" : String) ≠ "captured" ∧ ("pending" : String) ≠ "completed" :=
  ⟨rfl, by decide, by decide⟩

/-- C7, amended — the refund endpoint attempts the refund transition on every
stored payment whose (lower-cased) status is not `refunded`/`voided`, with no
precondition on `captured`/`completed`: when the store calls succeed, the
payment is moved to `"refunded"` or `"refund_failed"` according to the amount
check alone, whatever its prior state was. -/
theorem refund_attempted_from_any_nonterminal_state
    (pid : String) (s : Store) (p : Payment) (f : RefundFaults)
    (hfind : storeFind s pid = some p)
    (hnr : pyLower p.status ≠ "refunded") (hnv : pyLower p.status ≠ "voided")
    (hg1 : f.get1 = none) (hput : f.put = none) (hg2 : f.get2 = none) :
    ∃ tr, refund_payment pid s f = Except.ok
      (p.withStatus (if (refundDecide p.amount).1 then "refunded" else "refund_failed"),
        storePut s pid
          (p.withStatus (if (refundDecide p.amount).1 then "refunded" else "refund_failed")),
        tr) := by
  refine ⟨Call.getPayment pid ::
      Call.putPayment pid
        (p.withStatus (if (refundDecide p.amount).1 then "refunded" else "refund_failed")) ::
      record_refund_on_order_best_effort p.order_id pid (refundDecide p.amount).1
        (refundDecide p.amount).2 f.ann ++ [Call.getPayment pid], ?_⟩
  simp [refund_payment, dbGetPayment, hg1, hfind, hnr, hnv, hput, hg2,
    storeFind_storePut_self, Payment.withStatus]

/-- Witness for `refund_attempted_from_any_nonterminal_state`: refund of a
payment stored in state `"failed"`. -/
theorem refund_attempted_from_any_nonterminal_state_witness :
    ∃ tr, refund_payment "p4" [("p4", ⟨"p4", "o4", some 3, "failed"⟩)] okRF =
      Except.ok
        (Payment.withStatus ⟨"p4", "o4", some 3, "failed"⟩
            (if (refundDecide (some 3)).1 then "refunded" else "refund_failed"),
          storePut [("p4", ⟨"p4", "o4", some 3, "failed"⟩)] "p4"
            (Payment.withStatus ⟨"p4", "o4", some 3, "failed"⟩
              (if (refundDecide (some 3)).1 then "refunded" else "refund_failed")),
          tr) :=
  refund_attempted_from_any_nonterminal_state "p4"
    [("p4", ⟨"p4", "o4", some 3, "failed"⟩)] ⟨"p4", "o4", some 3, "failed"⟩ okRF
    (by decide) (by decide) (by decide) rfl rfl rfl

/-- C8 — capture of an entity whose state is not `authorized` yields the
conflict error, never success and never a silent no-op, no matter how many
times the attempt is retried against the unchanged store. -/
theorem capture_outside_authorized_always_conflicts
    (s : Store) (pid : String) (p : Payment) (n : Nat)
    (hfind : storeFind s pid = some p) (hst : p.status ≠ "authorized") :
    captureRetry n pid s =
      Except.error ⟨409, "Conflict: payment not in authorized state"⟩ := by
  have hbase : capture_payment pid s =
      Except.error ⟨409, "Conflict: payment not in authorized state"⟩ := by
    simp [capture_payment, hfind, hst]
  induction n with
  | zero => simpa [captureRetry] using hbase
  | succ n ih => simp [captureRetry, hbase, ih]

/-- Witness for `capture_outside_authorized_always_conflicts`: four retries
on an already-captured entity all conflict. -/
theorem capture_outside_authorized_always_conflicts_witness :
    captureRetry 3 "p5" [("p5", ⟨"p5", "o5", some 8, "captured"⟩)] =
      Except.error ⟨409, "Conflict: payment not in authorized state"⟩ :=
  capture_outside_authorized_always_conflicts
    [("p5", ⟨"p5", "o5", some 8, "captured"⟩)] "p5"
    ⟨"p5", "o5", some 8, "captured"⟩ 3 (by decide) (by decide)

/-- C9, counterexample — the update endpoint moves a stored payment from the
terminal status `"refunded"` back to `"pending"`, an earlier state of the
transition graph: statuses do not only move forward. -/
theorem update_reverts_terminal_status_cex :
    update_payment "p1" ⟨"p1", "o1", some 5, "pending"⟩
        [("p1", ⟨"p1", "o1", some 5, "refunded"⟩)] okUF =
      Except.ok (⟨"p1", "o1", some 5, "pending"⟩,
        [("p1", ⟨"p1", "o1", some 5, "pending"⟩)]) ∧
    statusRank "pending" < statusRank "refunded" :=
  ⟨rfl, by decide⟩

/-- A record stored under a different id survives a `storePut` to a fresh
id. -/
theorem find_preserved_of_ne (s : Store) (pid r : String) (p' u : Payment)
    (hne : r ≠ pid) (hr : storeFind s r = some p') :
    storeFind (storePut s pid u) r = some p' := by
  rw [storeFind_storePut_ne _ _ _ _ hne, hr]

/-- C9, amended — statuses only move forward except through the update
endpoint: update replaces the stored record wholesale with the caller's
payload (so it can set any status, including moving a terminal state back to
an earlier one, as the counterexample shows); the refund endpoint only ever
answers the record unchanged or moved to `"refunded"`/`"refund_failed"`; and
the create endpoint never modifies a record that is already stored. -/
theorem statuses_forward_except_wholesale_update :
    (∀ (pid : String) (payload : Payment) (s : Store) (f : UpdateFaults),
        f.get1 = none → f.put = none → (storeFind s pid).isSome →
        update_payment pid payload s f = Except.ok (payload, storePut s pid payload))
    ∧ (∀ (pid : String) (s : Store) (f : RefundFaults) (p q : Payment) (s' : Store),
        storeFind s pid = some p →
        eraseTrace (refund_payment pid s f) = Except.ok (q, s') →
        q.status = p.status ∨ q.status = "refunded" ∨ q.status = "refund_failed")
    ∧ (∀ (payload : Payment) (sync : Bool) (s : Store) (f : CreateFaults)
        (q : Payment) (s1 : Store) (tr : List Call) (r : String) (p' : Payment),
        f.get1 = none →
        create_payment payload sync s f = Except.ok (q, s1, tr) →
        storeFind s r = some p' → storeFind s1 r = some p') := by
  refine ⟨?_, ?_, ?_⟩
  · intro pid payload s f hg1 hput hsome
    obtain ⟨p, hp⟩ := Option.isSome_iff_exists.mp hsome
    simp [update_payment, dbGetPayment, hg1, hput, hp]
  · intro pid s f p q s' hfind heq
    rcases f with ⟨g1, put, ann, g2⟩
    cases g1 with
    | some e =>
        by_cases h404 : e.status_code = 404 <;>
          simp [refund_payment, dbGetPayment, eraseTrace, Except.map, h404] at heq
    | none =>
        by_cases hterm : pyLower p.status = "refunded" ∨ pyLower p.status = "voided"
        · simp [refund_payment, dbGetPayment, hfind, hterm, eraseTrace, Except.map] at heq
          obtain ⟨hq, -⟩ := heq
          subst hq
          exact Or.inl rfl
        · cases put with
          | some e =>
              simp [refund_payment, dbGetPayment, hfind, hterm,
                eraseTrace, Except.map] at heq
          | none =>
              cases g2 with
              | some e =>
                  simp [refund_payment, dbGetPayment, hfind, hterm,
                    eraseTrace, Except.map] at heq
              | none =>
                  simp [refund_payment, dbGetPayment, hfind, hterm,
                    eraseTrace, Except.map, storeFind_storePut_self] at heq
                  obtain ⟨hq, -⟩ := heq
                  subst hq
                  by_cases hd : (refundDecide p.amount).1
                  · right; left; simp [Payment.withStatus, hd]
                  · right; right; simp [Payment.withStatus, hd]
  · intro payload sync s f q s1 tr r p' hg1 heq hr
    rcases f with ⟨g1, post, putSync⟩
    cases hg1
    · cases hf : storeFind s payload.id with
        | some ex =>
            simp [create_payment, dbGetPayment, hf] at heq
            obtain ⟨-, hs1, -⟩ := heq
            subst hs1
            exact hr
        | none =>
            have hne : r ≠ payload.id := by
              rintro rfl
              rw [hf] at hr
              exact Option.noConfusion hr
            cases post with
            | some e2 => simp [create_payment, dbGetPayment, hf] at heq
            | none =>
                by_cases hs : sync ∧ pyLower payload.status = "pending"
                · by_cases hn : simulate_payment_processing payload.amount ≠ payload.status
                  · cases hps : putSync with
                    | some e =>
                        simp [create_payment, dbGetPayment, hf, hs, hn, hps] at heq
                        obtain ⟨-, hs1, -⟩ := heq
                        subst hs1
                        exact find_preserved_of_ne s payload.id r p' payload hne hr
                    | none =>
                        simp [create_payment, dbGetPayment, hf, hs, hn, hps] at heq
                        obtain ⟨-, hs1, -⟩ := heq
                        subst hs1
                        exact find_preserved_of_ne _ payload.id r p' _ hne
                          (find_preserved_of_ne s payload.id r p' payload hne hr)
                  · simp [create_payment, dbGetPayment, hf, hs, hn] at heq
                    obtain ⟨-, hs1, -⟩ := heq
                    subst hs1
                    exact find_preserved_of_ne s payload.id r p' payload hne hr
                · simp [create_payment, dbGetPayment, hf, hs] at heq
                  obtain ⟨-, hs1, -⟩ := heq
                  subst hs1
                  exact find_preserved_of_ne s payload.id r p' payload hne hr

/-- Witness for `statuses_forward_except_wholesale_update`, instantiating
each conjunct at a concrete store: an update that succeeds, a refund whose
answer's status is forward of `"completed"`, and a create that leaves the
previously stored record of another id intact. -/
theorem statuses_forward_except_wholesale_update_witness :
    update_payment "u1" ⟨"u1", "o1", some 4, "authorized"⟩
        [("u1", ⟨"u1", "o1", some 4, "pending"⟩)] okUF =
      Except.ok (⟨"u1", "o1", some 4, "authorized"⟩,
        storePut [("u1", ⟨"u1", "o1", some 4, "pending"⟩)] "u1"
          ⟨"u1", "o1", some 4, "authorized"⟩) ∧
    ((⟨"u2", "o2", some 9, "refunded"⟩ : Payment).status =
        (⟨"u2", "o2", some 9, "completed"⟩ : Payment).status ∨
      (⟨"u2", "o2", some 9, "refunded"⟩ : Payment).status = "refunded" ∨
      (⟨"u2", "o2", some 9, "refunded"⟩ : Payment).status = "refund_failed") ∧
    storeFind [("u3", ⟨"u3", "o3", some 1, "completed"⟩)] "u3" =
      some ⟨"u3", "o3", some 1, "completed"⟩ :=
  ⟨statuses_forward_except_wholesale_update.1 "u1" ⟨"u1", "o1", some 4, "authorized"⟩
      [("u1", ⟨"u1", "o1", some 4, "pending"⟩)] okUF rfl rfl (by decide),
    statuses_forward_except_wholesale_update.2.1 "u2"
      [("u2", ⟨"u2", "o2", some 9, "completed"⟩)] okRF
      ⟨"u2", "o2", some 9, "completed"⟩ ⟨"u2", "o2", some 9, "refunded"⟩
      [("u2", ⟨"u2", "o2", some 9, "refunded"⟩)] (by decide) rfl,
    statuses_forward_except_wholesale_update.2.2
      ⟨"c1", "oC", some 2, "pending"⟩ true
      [("u3", ⟨"u3", "o3", some 1, "completed"⟩)] okCF
      (Payment.withStatus ⟨"c1", "oC", some 2, "pending"⟩ "completed")
      (storePut (storePut [("u3", ⟨"u3", "o3", some 1, "completed"⟩)] "c1"
          ⟨"c1", "oC", some 2, "pending"⟩) "c1"
        (Payment.withStatus ⟨"c1", "oC", some 2, "pending"⟩ "completed"))
      [Call.getPayment "c1", Call.postPayment ⟨"c1", "oC", some 2, "pending"⟩,
        Call.putPayment "c1" (Payment.withStatus ⟨"c1", "oC", some 2, "pending"⟩ "completed")]
      "u3" ⟨"u3", "o3", some 1, "completed"⟩ rfl rfl (by decide)⟩

/-- The simulated gateway never answers `"pending"`. -/
theorem simulate_ne_pending (x : Option ℚ) :
    simulate_payment_processing x ≠ "pending" := by
  cases x with
  | none => simp [simulate_payment_processing]
  | some a => by_cases h : a > 0 <;> simp [simulate_payment_processing, h]

/-- C10 — with synchronous processing on and an incoming status `"pending"`
for a fresh id: a strictly positive amount yields a create response (and
stored record) with status `"completed"`; an absent or non-positive amount
yields status `"failed"`; and when the follow-up `PUT` of the processed
status fails, create still succeeds, answering the originally inserted
record with status `"pending"` (the write failure is swallowed). -/
theorem create_sync_resolves_pending :
    (∀ (payload : Payment) (s : Store) (a : ℚ),
        storeFind s payload.id = none → payload.status = "pending" →
        payload.amount = some a → 0 < a →
        ∃ tr, create_payment payload true s okCF =
          Except.ok (payload.withStatus "completed",
            storePut (storePut s payload.id payload) payload.id
              (payload.withStatus "completed"), tr))
    ∧ (∀ (payload : Payment) (s : Store),
        storeFind s payload.id = none → payload.status = "pending" →
        (payload.amount = none ∨ ∃ a, payload.amount = some a ∧ a ≤ 0) →
        ∃ tr, create_payment payload true s okCF =
          Except.ok (payload.withStatus "failed",
            storePut (storePut s payload.id payload) payload.id
              (payload.withStatus "failed"), tr))
    ∧ (∀ (payload : Payment) (s : Store) (f : CreateFaults) (e : HErr),
        storeFind s payload.id = none → payload.status = "pending" →
        f.get1 = none → f.post = none → f.putSync = some e →
        create_payment payload true s f =
          Except.ok (payload, storePut s payload.id payload,
            [Call.getPayment payload.id, Call.postPayment payload,
              Call.putPayment payload.id
                (payload.withStatus (simulate_payment_processing payload.amount))])) := by
  have hl : pyLower "pending" = "pending" := rfl
  refine ⟨?_, ?_, ?_⟩
  · intro payload s a hfresh hst ha hpos
    have hsim : simulate_payment_processing payload.amount = "completed" := by
      simp [simulate_payment_processing, ha, hpos]
    refine ⟨[Call.getPayment payload.id, Call.postPayment payload,
      Call.putPayment payload.id (payload.withStatus "completed")], ?_⟩
    simp [create_payment, dbGetPayment, hfresh, okCF, hst, hl, hsim]
  · intro payload s hfresh hst hamt
    have hsim : simulate_payment_processing payload.amount = "failed" := by
      rcases hamt with h | ⟨a, ha, hle⟩
      · simp [simulate_payment_processing, h]
      · simp [simulate_payment_processing, ha, not_lt.mpr hle]
    refine ⟨[Call.getPayment payload.id, Call.postPayment payload,
      Call.putPayment payload.id (payload.withStatus "failed")], ?_⟩
    simp [create_payment, dbGetPayment, hfresh, okCF, hst, hl, hsim]
  · intro payload s f e hfresh hst hg1 hpost hps
    rcases f with ⟨g1, post, putSync⟩
    cases hg1; cases hpost; cases hps
    simp [create_payment, dbGetPayment, hfresh, hst, hl, simulate_ne_pending payload.amount]

/-- Witness for `create_sync_resolves_pending`, instantiating all three
parts: a positive-amount pending create completing, a zero-amount pending
create failing, and a pending create whose processed-status write times out
still answering the inserted pending record. -/
theorem create_sync_resolves_pending_witness :
    (∃ tr, create_payment ⟨"w1", "o1", some 5, "pending"⟩ true [] okCF =
      Except.ok (Payment.withStatus ⟨"w1", "o1", some 5, "pending"⟩ "completed",
        storePut (storePut [] "w1" ⟨"w1", "o1", some 5, "pending"⟩) "w1"
          (Payment.withStatus ⟨"w1", "o1", some 5, "pending"⟩ "completed"), tr))
    ∧ (∃ tr, create_payment ⟨"w2", "o2", some 0, "pending"⟩ true [] okCF =
      Except.ok (Payment.withStatus ⟨"w2", "o2", some 0, "pending"⟩ "failed",
        storePut (storePut [] "w2" ⟨"w2", "o2", some 0, "pending"⟩) "w2"
          (Payment.withStatus ⟨"w2", "o2", some 0, "pending"⟩ "failed"), tr))
    ∧ create_payment ⟨"w3", "o3", some 5, "pending"⟩ true []
        ⟨none, none, some ⟨504, "timeout"⟩⟩ =
      Except.ok (⟨"w3", "o3", some 5, "pending"⟩,
        storePut [] "w3" ⟨"w3", "o3", some 5, "pending"⟩,
        [Call.getPayment "w3", Call.postPayment ⟨"w3", "o3", some 5, "pending"⟩,
          Call.putPayment "w3"
            (Payment.withStatus ⟨"w3", "o3", some 5, "pending"⟩
              (simulate_payment_processing (some 5)))]) :=
  ⟨create_sync_resolves_pending.1 ⟨"w1", "o1", some 5, "pending"⟩ [] 5 rfl rfl rfl
      (by norm_num),
    create_sync_resolves_pending.2.1 ⟨"w2", "o2", some 0, "pending"⟩ [] rfl rfl
      (Or.inr ⟨0, rfl, le_refl 0⟩),
    create_sync_resolves_pending.2.2 ⟨"w3", "o3", some 5, "pending"⟩ []
      ⟨none, none, some ⟨504, "timeout"⟩⟩ ⟨504, "timeout"⟩ rfl rfl rfl rfl rfl⟩

end PaymentService
